import Mathlib

/-!
Shallow embedding of the convoai-playground call-session code.

The repository is a Next.js voice-chat front end.  The parts embedded here
are the pure/decision content of:

* `src/utils/uid.ts`            — participant-id generation,
* `src/app/page.tsx`            — `startConversation` / `cleanup` control flow
                                  and its own `generateUid`,
* `src/app/aura/page.tsx`       — `startCall` / `endCall` control flow,
* `src/lib/agora-token.ts`      — `generateRtcToken` credential check,
* `src/app/api/token/route.ts`  — `POST /token` handler,
* `src/app/api/agent/route.ts`  — log ring buffer, platform/LLM/TTS config,
                                  `POST /agent` payload construction and
                                  upstream-response handling, `DELETE /agent`,
                                  `GET /agent`.

External effects (fetch, the RTC SDK, `Math.random`, `JSON.parse`, the vendor
token signer, base64 encoding) are modelled as explicit inputs: a random
stream `Nat → Nat`, `Except`-valued outcomes for awaited calls, a
`SignCall → String` signer, and a parsed-or-raw upstream body.  `process.env`
is a total function `String → String` where `""` stands for an unset or empty
variable (JS reads every env var as `process.env.X || ''` or checks it with
`!x`, so unset and empty collapse).
-/

namespace ConvoAI

/-- JS `a || b` on strings: the empty string is falsy. -/
def jsOrStr (a b : String) : String := if a = "" then b else a

/-- JS `a || b` where `a` is a possibly-absent string (`undefined` or a
string, with `""` falsy). -/
def jsOrOpt (a : Option String) (b : String) : String := jsOrStr (a.getD "") b

/-- `process.env` as a total map; `""` means unset or empty. -/
def Env : Type := String → String

/-! ## Participant-id generation

`src/utils/uid.ts` (`generateUids`) and `src/app/page.tsx` (`generateUid`).
`Math.floor(Math.random() * 100000)` is modelled by a stream
`stream : Nat → Nat` of the successive floored draws. -/

/-- `src/app/page.tsx` `generateUid`:
`Math.floor(Math.random() * 100000) + 1`, reading one draw. -/
def generateUid (draw : Nat) : Nat := draw + 1

/-- The identity pair produced inside `startConversation`
(`src/app/page.tsx` lines 108–110): two independent `generateUid()` calls,
with no collision check. -/
def pageUidPair (stream : Nat → Nat) : Nat × Nat :=
  (generateUid (stream 0), generateUid (stream 1))

/-- The `while (agentUid === userUid)` regeneration loop of
`src/utils/uid.ts`: keep drawing from the stream (starting at index `i`)
until a value different from `userUid` appears.  The JS loop is unbounded;
`fuel` bounds the embedding, with `none` for a run that has not terminated
within `fuel` draws. -/
def regenAgentUid (userUid : Nat) (stream : Nat → Nat) : Nat → Nat → Option Nat
  | _, 0 => none
  | i, fuel + 1 =>
    if stream i = userUid then regenAgentUid userUid stream (i + 1) fuel
    else some (stream i)

/-- `src/utils/uid.ts` `generateUids`: `userUid` is the first draw, `agentUid`
is regenerated while it collides with `userUid`. -/
def generateUids (stream : Nat → Nat) (fuel : Nat) : Option (Nat × Nat) :=
  match regenAgentUid (stream 0) stream 1 fuel with
  | some agentUid => some (stream 0, agentUid)
  | none => none

/-! ## The log ring buffer (`src/app/api/agent/route.ts` lines 3–9, 340–342) -/

/-- One entry of the module-level `logs` array. -/
structure LogEntry where
  time : String
  ty : String
  data : String
deriving DecidableEq, Repr

/-- The cap used in this deployment's `log` function (`logs.length > 200`). -/
def LOG_CAP : Nat := 200

/-- `log(type, data)`: push the entry, then `if (logs.length > 200) logs.shift()`
removes the single oldest entry. -/
def logPush (logs : List LogEntry) (e : LogEntry) : List LogEntry :=
  let l := logs ++ [e]
  if LOG_CAP < l.length then l.drop 1 else l

/-- `GET /agent`: `{ logs, count: logs.length }`. -/
def agentGET (logs : List LogEntry) : List LogEntry × Nat := (logs, logs.length)

/-! ## Token service (`src/lib/agora-token.ts`) and `POST /token`
(`src/app/api/token/route.ts`) -/

/-- `getCredentials(platform)` in `src/lib/agora-token.ts`: the pair
(appId, appCertificate) read from the platform's env vars, untrimmed.
Any platform other than `"shengwang"` falls to the Agora credentials. -/
def tokenGetCredentials (env : Env) (platform : String) : String × String :=
  if platform = "shengwang" then
    (env "SHENGWANG_APP_ID", env "SHENGWANG_APP_CERTIFICATE")
  else
    (env "AGORA_APP_ID", env "AGORA_APP_CERTIFICATE")

/-- The argument record of one call to the vendor signing primitive
`RtcTokenBuilder.buildTokenWithUid`.  The signer itself is an external
black box. -/
structure SignCall where
  appId : String
  appCertificate : String
  channelName : String
  uid : Nat
  rolePublisher : Bool
  tokenExpire : Nat
  privilegeExpire : Nat
deriving DecidableEq, Repr

/-- `generateRtcToken` of `src/lib/agora-token.ts`, up to the signing call:
resolves credentials, throws (`Except.error`) when either is empty —
before the signer is invoked — and otherwise produces the exact argument
record passed to `RtcTokenBuilder.buildTokenWithUid` (the expiry is passed
twice, as `tokenExpire` and `privilegeExpire`). -/
def generateRtcTokenCall (env : Env) (channelName : String) (uid : Nat)
    (platform : String) (rolePublisher : Bool) (expireTimeInSeconds : Nat)
    (now : Nat) : Except String SignCall :=
  let c := tokenGetCredentials env platform
  if c.1 = "" ∨ c.2 = "" then
    .error (platform ++ " credentials not configured")
  else
    let privilegeExpireTime := now + expireTimeInSeconds
    .ok ⟨c.1, c.2, channelName, uid, rolePublisher, privilegeExpireTime,
      privilegeExpireTime⟩

/-- `generateRtcToken` proper: the token string returned by the signer. -/
def generateRtcToken (sign : SignCall → String) (env : Env)
    (channelName : String) (uid : Nat) (platform : String)
    (rolePublisher : Bool) (expireTimeInSeconds : Nat) (now : Nat) :
    Except String String :=
  (generateRtcTokenCall env channelName uid platform rolePublisher
    expireTimeInSeconds now).map sign

/-- Result of the `POST /token` handler.  `badRequest` is the 400 response,
`configError` the 500 for missing credentials, `signError` the 500 when token
generation throws, `emptyToken` the 500 for an empty generated token and
`success` the 200 body. -/
inductive TokenRouteResp
  | badRequest
  | configError (msg : String)
  | signError (details : String)
  | emptyToken
  | success (token : String) (appId : String) (channelName : String)
      (uid : Nat) (platform : String)
deriving DecidableEq, Repr

/-- Does this response carry HTTP status 500? (`configError`, `signError`
and `emptyToken` are all returned with `{ status: 500 }`.) -/
def TokenRouteResp.isServerError : TokenRouteResp → Bool
  | .configError _ => true
  | .signError _ => true
  | .emptyToken => true
  | _ => false

/-- The env-var existence check of `POST /token`: `envVars[platform]` is only
populated for the two supported platform keys; anything else reads as
`undefined` (here `none`). -/
def tokenRouteEnvFor (env : Env) (platform : String) :
    Option (String × String) :=
  if platform = "shengwang" then
    some (env "SHENGWANG_APP_ID", env "SHENGWANG_APP_CERTIFICATE")
  else if platform = "agora" then
    some (env "AGORA_APP_ID", env "AGORA_APP_CERTIFICATE")
  else none

/-- The `POST /token` handler of `src/app/api/token/route.ts`, with the
external signer as a parameter.  The second component records the signing
call actually made (`none` = the vendor primitive was never invoked).
The request body carries `channelName` (with `""`, like JS `''`, falsy) and
an optional `uid` (`uid === undefined` is the only uid check: `0` passes);
`platform` defaults to `"shengwang"`. -/
def tokenPOST (sign : SignCall → String) (env : Env)
    (channelName : Option String) (uid : Option Nat)
    (platform : Option String) (now : Nat) :
    TokenRouteResp × Option SignCall :=
  let pf := platform.getD "shengwang"
  if jsOrOpt channelName "" = "" ∨ uid = none then (.badRequest, none)
  else
    match uid with
    | none => (.badRequest, none)
    | some u =>
      match tokenRouteEnvFor env pf with
      | none => (.configError ("Missing " ++ pf ++ " credentials"), none)
      | some (appId, appCert) =>
        if appId = "" ∨ appCert = "" then
          (.configError ("Missing " ++ pf ++ " credentials"), none)
        else
          match generateRtcTokenCall env (channelName.getD "") u pf true
              3600 now with
          | .error e => (.signError e, none)
          | .ok sc =>
            let token := sign sc
            if token = "" then (.emptyToken, some sc)
            else
              (.success token (tokenGetCredentials env pf).1
                (channelName.getD "") u pf, some sc)

/-! ## `POST /agent` (`src/app/api/agent/route.ts`)

Platform configuration, TTS/LLM selection, language defaults, payload
construction and upstream-response normalization. -/

/-- `getCredentials()` of `AGORA_CONFIG` / `SHENGWANG_CONFIG`: the four
platform credentials, read from env at request time, untrimmed. -/
structure Credentials where
  appId : String
  appCertificate : String
  customerId : String
  customerSecret : String
deriving DecidableEq, Repr

def AGORA_getCredentials (env : Env) : Credentials :=
  ⟨env "AGORA_APP_ID", env "AGORA_APP_CERTIFICATE",
    env "AGORA_CUSTOMER_ID", env "AGORA_CUSTOMER_SECRET"⟩

def SHENGWANG_getCredentials (env : Env) : Credentials :=
  ⟨env "SHENGWANG_APP_ID", env "SHENGWANG_APP_CERTIFICATE",
    env "SHENGWANG_CUSTOMER_ID", env "SHENGWANG_CUSTOMER_SECRET"⟩

def AGORA_apiBase : String :=
  "https://api.agora.io/api/conversational-ai-agent/v2/projects"

def SHENGWANG_apiBase : String :=
  "https://api.agora.io/cn/api/conversational-ai-agent/v2/projects"

/-- A resolved LLM configuration (name, url, model, and the api key already
read — `getApiKey()` applied). -/
structure LlmCfg where
  name : String
  url : String
  model : String
  apiKey : String
deriving DecidableEq, Repr

/-- `AGORA_CONFIG.llmProviders[llmProvider] || AGORA_CONFIG.llmProviders.openai`:
OpenAI or OpenRouter, keys trimmed. -/
def agoraLlmProvider (env : Env) (llmProvider : String) : LlmCfg :=
  if llmProvider = "openai" then
    ⟨"OpenAI", "https://api.openai.com/v1/chat/completions", "gpt-4o-mini",
      (env "OPENAI_API_KEY").trim⟩
  else if llmProvider = "openrouter" then
    ⟨"OpenRouter", "https://openrouter.ai/api/v1/chat/completions",
      "openai/gpt-4o-mini", (env "OPENROUTER_API_KEY").trim⟩
  else
    ⟨"OpenAI", "https://api.openai.com/v1/chat/completions", "gpt-4o-mini",
      (env "OPENAI_API_KEY").trim⟩

/-- `SHENGWANG_CONFIG.llm`: Aliyun Qwen, key trimmed. -/
def shengwangLlm (env : Env) : LlmCfg :=
  ⟨"阿里云通义千问",
    "https://dashscope.aliyuncs.com/compatible-mode/v1/chat/completions",
    "qwen-turbo", (env "ALIYUN_API_KEY").trim⟩

/-- A resolved TTS configuration, one constructor per vendor, keeping the
fields relevant to credentials and voice selection. -/
inductive TtsConfig
  | elevenlabs (key : String) (modelId : String) (voiceId : String)
  | minimax (key : String) (groupId : String) (model : String)
      (voiceId : String)
  | volcano (accessToken : String) (appId : String) (cluster : String)
      (voiceType : String)
deriving DecidableEq, Repr

def TtsConfig.vendor : TtsConfig → String
  | .elevenlabs .. => "elevenlabs"
  | .minimax .. => "minimax"
  | .volcano .. => "volcano"

/-- `getElevenLabsTTS(language)`: key trimmed, voice looked up in `voiceMap`
with `voiceMap[language] || voiceMap['zh-CN']`. -/
def getElevenLabsTTS (env : Env) (language : String) : TtsConfig :=
  let voiceMap : String → String := fun l =>
    if l = "zh-CN" then "pNInz6obpgDQGcFmaJgB"
    else if l = "en-US" then "21m00Tcm4TlvDq8ikWAM"
    else if l = "ja-JP" then "pNInz6obpgDQGcFmaJgB"
    else ""
  .elevenlabs ((env "ELEVENLABS_API_KEY").trim) "eleven_flash_v2_5"
    (jsOrStr (voiceMap language) (voiceMap "zh-CN"))

/-- `getMiniMaxTTS(voiceId)`: key and group id trimmed. -/
def getMiniMaxTTS (env : Env) (voiceId : String) : TtsConfig :=
  .minimax ((env "MINIMAX_API_KEY").trim) ((env "MINIMAX_GROUP_ID").trim)
    "speech-02-turbo" voiceId

/-- `getVolcanoTTS()`: access token and app id trimmed. -/
def getVolcanoTTS (env : Env) : TtsConfig :=
  .volcano ((env "VOLCANO_ACCESS_TOKEN").trim) ((env "VOLCANO_APP_ID").trim)
    "volcano_tts" "zh_female_cancan"

/-- One row of `LANG_CONFIG`. -/
structure LangCfg where
  greeting : String
  failure : String
  systemPrompt : String
deriving DecidableEq, Repr

def LANG_CONFIG_zh : LangCfg :=
  ⟨"你好！有什么可以帮助你的吗？", "请稍等一下。",
    "你是一个友好的AI语音助手。请用简洁自然的中文回答问题。"⟩

def LANG_CONFIG_en : LangCfg :=
  ⟨"Hello! How can I help you today?", "Please hold on a moment.",
    "You are a friendly AI voice assistant. Please respond in natural, conversational English."⟩

def LANG_CONFIG_ja : LangCfg :=
  ⟨"こんにちは！何かお手伝いできることはありますか？", "少々お待ちください。",
    "あなたはフレンドリーなAI音声アシスタントです。自然な日本語で簡潔に答えてください。"⟩

/-- The `LANG_CONFIG` record: exact-match lookup on the language tag. -/
def LANG_CONFIG : String → Option LangCfg
  | "zh-CN" => some LANG_CONFIG_zh
  | "en-US" => some LANG_CONFIG_en
  | "ja-JP" => some LANG_CONFIG_ja
  | _ => none

/-- The request body of `POST /agent` as destructured by the handler.
`none` models an absent (`undefined`) JSON field; destructuring defaults
apply exactly to `none`.  The uids are numbers whose JS-falsy value is `0`,
strings are falsy exactly when `""`. -/
structure AgentReqBody where
  channelName : String
  agentUid : Nat
  userUid : Nat
  token : String
  userToken : String
  language : Option String
  systemPrompt : Option String
  temperature : Option Rat
  maxTokens : Option Rat
  platform : Option String
  llmProvider : Option String
  ttsVendor : Option String
  minimaxVoice : Option String
  customLlmUrl : Option String

/-- The launch payload assembled by `POST /agent` before the upstream fetch,
together with the request target.  `authRaw` is the `customerId:customerSecret`
string handed to the (external) base64 encoder for the Basic auth header. -/
structure AgentPayload where
  name : String
  channel : String
  token : String
  agentRtcUid : String
  remoteRtcUids : List String
  asrVendor : String
  asrLanguage : String
  llmName : String
  llmUrl : String
  llmApiKey : String
  llmModel : String
  systemMessage : String
  greetingMessage : String
  failureMessage : String
  temperature : Rat
  maxTokens : Rat
  tts : TtsConfig
  apiUrl : String
  authRaw : String
deriving DecidableEq, Repr

/-- The validation + payload-construction prefix of the `POST /agent`
handler (`src/app/api/agent/route.ts` lines 148–289): `none` is the 400
`Missing required parameters` response, `some` the payload of the upstream
fetch. -/
def agentPOSTBuild (env : Env) (b : AgentReqBody) (now : Nat) :
    Option AgentPayload :=
  let language := b.language.getD "zh-CN"
  let temperature := b.temperature.getD (7 / 10)
  let maxTokens := b.maxTokens.getD 500
  let platform := b.platform.getD "agora"
  let llmProvider := b.llmProvider.getD "openai"
  let minimaxVoice := b.minimaxVoice.getD "femalegirl03"
  let agentToken := jsOrStr b.token b.userToken
  if b.channelName = "" ∨ b.agentUid = 0 ∨ b.userUid = 0 then none
  else
    let isShengwang := platform = "shengwang"
    let credentials :=
      if isShengwang then SHENGWANG_getCredentials env
      else AGORA_getCredentials env
    let apiBase := if isShengwang then SHENGWANG_apiBase else AGORA_apiBase
    let customLlmUrl :=
      jsOrStr (b.customLlmUrl.getD "") (env "NEXT_PUBLIC_VOICE_ADAPTER_URL")
    let llmConfig : LlmCfg :=
      if customLlmUrl ≠ "" then
        ⟨"OpenClaw Voice Adapter", customLlmUrl, "openclaw", "not-required"⟩
      else if isShengwang then shengwangLlm env
      else agoraLlmProvider env llmProvider
    let ttsConfig :=
      if isShengwang then
        if b.ttsVendor = some "volcano" then getVolcanoTTS env
        else getMiniMaxTTS env minimaxVoice
      else getElevenLabsTTS env language
    let langConfig := (LANG_CONFIG language).getD LANG_CONFIG_zh
    some
      { name := "convoai-" ++ toString now
        channel := b.channelName
        token := agentToken
        agentRtcUid := toString b.agentUid
        remoteRtcUids := [toString b.userUid]
        asrVendor := if isShengwang then "fengming" else "ares"
        asrLanguage := language
        llmName := llmConfig.name
        llmUrl := llmConfig.url
        llmApiKey := llmConfig.apiKey
        llmModel := llmConfig.model
        systemMessage := jsOrOpt b.systemPrompt langConfig.systemPrompt
        greetingMessage := langConfig.greeting
        failureMessage := langConfig.failure
        temperature := temperature
        maxTokens := maxTokens
        tts := ttsConfig
        apiUrl := apiBase ++ "/" ++ credentials.appId ++ "/join"
        authRaw := credentials.customerId ++ ":" ++ credentials.customerSecret }

/-- The upstream response body after `JSON.parse(responseText)`:
either a JSON object (with the fields the handler reads) or, when parsing
throws, the `{ rawText: responseText }` wrapper. -/
inductive ParsedBody
  | fields (message : Option String) (detail : Option String)
      (agentId : Option String) (id : Option String)
  | rawText (raw : String)
deriving DecidableEq, Repr

/-- `response.ok` of the Fetch API: status in [200, 300). -/
def httpOk (status : Nat) : Bool := 200 ≤ status && status < 300

/-- The response of `POST /agent` as seen by the caller after the upstream
fetch has resolved with `upStatus` and body `body`. -/
structure AgentRouteResp where
  status : Nat
  error : Option String
  details : Option ParsedBody
  agentId : Option String
  started : Bool
deriving DecidableEq, Repr

/-- JS truthiness on an optional string field: `some ""` and `none` are
both falsy. -/
def truthy : Option String → Option String
  | some "" => none
  | none => none
  | some s => some s

/-- `data.message || data.detail || 'Failed to start agent'`. -/
def upstreamErrMsg (message detail : Option String) : String :=
  jsOrStr (jsOrOpt message "") (jsOrOpt detail "Failed to start agent")

/-- The tail of the `POST /agent` handler (lines 291–311): non-2xx upstream
replies become `{ error, details }` with the upstream status; 2xx replies
become `{ agentId: data.agent_id || data.id, status: 'started', ... }` with
status 200. -/
def agentPOSTRespond (upStatus : Nat) (body : ParsedBody) : AgentRouteResp :=
  if httpOk upStatus then
    match body with
    | .fields _ _ agentId id =>
      { status := 200, error := none, details := none
        agentId := truthy agentId <|> truthy id, started := true }
    | .rawText _ =>
      { status := 200, error := none, details := none
        agentId := none, started := true }
  else
    match body with
    | .fields message detail _ _ =>
      { status := upStatus, error := some (upstreamErrMsg message detail)
        details := some body, agentId := none, started := false }
    | .rawText raw =>
      { status := upStatus, error := some "Failed to start agent"
        details := some (.rawText raw), agentId := none, started := false }

/-! ## `DELETE /agent` (`src/app/api/agent/route.ts` lines 318–338) -/

/-- The response of `DELETE /agent`: 400 when `agentId` is JS-falsy, 500
(`Failed to stop agent`) when the upstream fetch or `response.json()`
throws, otherwise 200 `{ status: 'stopped', ...data }` — the upstream HTTP
status is never inspected. -/
inductive DeleteResp
  | badRequest
  | stopped (upstreamFields : List (String × String))
  | serverError
deriving DecidableEq, Repr

/-- The `DELETE /agent` handler.  `upstream` is the outcome of the upstream
stop call: `Except.error` for a network failure or an unparseable JSON body,
`Except.ok (status, fields)` for a reply with any HTTP status and a JSON
body. -/
def agentDELETE (agentId : Option String) (platform : Option String)
    (upstream : Except Unit (Nat × List (String × String))) : DeleteResp :=
  let _pf := platform.getD "agora"
  if jsOrOpt agentId "" = "" then .badRequest
  else
    match upstream with
    | .error _ => .serverError
    | .ok (_, fields) => .stopped fields

/-! ## Call-session controllers

`startConversation` / `cleanup` of `src/app/page.tsx` and
`startCall` / `endCall` of `src/app/aura/page.tsx`.  Each awaited external
operation is an `Except String _` input; the controller's own control flow
(the `try { ... } catch` and the validation checks) is embedded faithfully.
Each run records the ordered trace of external operations it attempted. -/

/-- The external steps of the two start sequences. -/
inductive StartStep
  | loadSdk
  | requestUserToken
  | requestAgentToken
  | joinChannel
  | createAudioTrack
  | publishTrack
  | launchAgent
deriving DecidableEq, Repr

/-- The parsed body of a `/api/token` response as used by the pages:
`ok` is `response.ok`, `token`/`appId` with `""` for an absent field,
`error` the error message field. -/
structure TokenData where
  ok : Bool
  token : String
  appId : String
  error : String
deriving DecidableEq, Repr

/-- The parsed body of a `/api/agent` response as used by the pages. -/
structure AgentData where
  ok : Bool
  agentId : String
  error : String
deriving DecidableEq, Repr

/-- Outcomes of the external operations awaited by
`startConversation` (`src/app/page.tsx`), in source order of first use.
`Except.error` models a rejected promise (network error, SDK throw). -/
structure PageStartEnv where
  sdkLoad : Except String Unit
  userToken : Except String TokenData
  agentToken : Except String TokenData
  joinRes : Except String Unit
  trackRes : Except String Unit
  publishRes : Except String Unit
  agentRes : Except String AgentData

/-- `page.tsx` connection states (the page has no separate `error` state;
failures set the `error` message and return to `idle`). -/
inductive ConnState
  | idle
  | connecting
  | connected
  | disconnecting
deriving DecidableEq, Repr

/-- Result of one run of `startConversation`: the ordered trace of external
steps attempted, the final `state`, the `error` message (set exactly on the
catch path) and whether `cleanup()` was invoked (the catch path awaits it). -/
structure PageStartResult where
  trace : List StartStep
  state : ConnState
  error : Option String
  cleanupRun : Bool
deriving DecidableEq, Repr

/-- The `catch` path of `startConversation`: set `error`, `setState('idle')`,
`await cleanup()`. -/
def pageFail (tr : List StartStep) (msg : String) : PageStartResult :=
  { trace := tr, state := .idle, error := some msg, cleanupRun := true }

/-- `startConversation` (`src/app/page.tsx` lines 91–243).  Source order:
load SDK, generate ids, request the user token (validated: `response.ok`,
then non-empty `token` and `appId`), request the agent token (validated:
`response.ok` and non-empty `token`), register listeners, join the channel,
create and publish the microphone track, launch the agent (validated:
`response.ok`), then `setState('connected')`. -/
def startConversation (env : PageStartEnv) : PageStartResult :=
  match env.sdkLoad with
  | .error e => pageFail [.loadSdk] e
  | .ok _ =>
    let tr1 := [StartStep.loadSdk, StartStep.requestUserToken]
    match env.userToken with
    | .error e => pageFail tr1 e
    | .ok td =>
      if td.ok = false then
        pageFail tr1 ("Token API error: " ++ jsOrStr td.error "Unknown error")
      else if td.token = "" ∨ td.appId = "" then
        pageFail tr1 "Invalid token response"
      else
        let tr2 := tr1 ++ [StartStep.requestAgentToken]
        match env.agentToken with
        | .error e => pageFail tr2 e
        | .ok atd =>
          if atd.ok = false ∨ atd.token = "" then
            pageFail tr2
              ("Agent Token API error: " ++ jsOrStr atd.error "Unknown error")
          else
            let tr3 := tr2 ++ [StartStep.joinChannel]
            match env.joinRes with
            | .error e => pageFail tr3 e
            | .ok _ =>
              let tr4 := tr3 ++ [StartStep.createAudioTrack]
              match env.trackRes with
              | .error e => pageFail tr4 e
              | .ok _ =>
                let tr5 := tr4 ++ [StartStep.publishTrack]
                match env.publishRes with
                | .error e => pageFail tr5 e
                | .ok _ =>
                  let tr6 := tr5 ++ [StartStep.launchAgent]
                  match env.agentRes with
                  | .error e => pageFail tr6 e
                  | .ok ad =>
                    if ad.ok = false then
                      pageFail tr6 (jsOrStr ad.error "Failed to start agent")
                    else
                      { trace := tr6, state := .connected, error := none
                        cleanupRun := false }

/-- The teardown actions of `cleanup()` (`src/app/page.tsx` lines 253–285),
in source order. -/
inductive TeardownAction
  | stopAgentRequest
  | trackStop
  | trackClose
  | channelLeave
deriving DecidableEq, Repr

/-- `cleanup()`: the `DELETE /agent` call is wrapped in its own
`try { ... } catch` — its outcome is only logged and never re-thrown — after
which the audio track is stopped and closed and the channel left.
Returns the actions performed and the swallowed stop error, if any. -/
def cleanup (agentId : Option String) (hasTrack hasClient : Bool)
    (stopOutcome : Except String DeleteResp) :
    List TeardownAction × Option String :=
  let hasAgent := jsOrOpt agentId "" ≠ ""
  let stopActs := if hasAgent then [TeardownAction.stopAgentRequest] else []
  let caught :=
    if hasAgent then
      match stopOutcome with
      | .error e => some e
      | .ok _ => none
    else none
  let trackActs :=
    if hasTrack then [TeardownAction.trackStop, TeardownAction.trackClose]
    else []
  let clientActs := if hasClient then [TeardownAction.channelLeave] else []
  (stopActs ++ trackActs ++ clientActs, caught)

/-- `stopConversation` (`src/app/page.tsx` lines 246–250):
`setState('disconnecting')`, `await cleanup()`, `setState('idle')`. -/
def stopConversation (agentId : Option String) (hasTrack hasClient : Bool)
    (stopOutcome : Except String DeleteResp) :
    ConnState × List TeardownAction × Option String :=
  let c := cleanup agentId hasTrack hasClient stopOutcome
  (.idle, c.1, c.2)

/-- The aura page status values (`src/app/aura/page.tsx`). -/
inductive AuraStatus
  | idle
  | connecting
  | connected
  | talking
  | error
deriving DecidableEq, Repr

/-- Outcomes of the external operations awaited by `startCall`
(`src/app/aura/page.tsx`), in source order of first use. -/
structure AuraStartEnv where
  sdkLoad : Except String Unit
  userToken : Except String TokenData
  joinRes : Except String Unit
  trackRes : Except String Unit
  publishRes : Except String Unit
  agentToken : Except String TokenData
  agentRes : Except String AgentData

/-- Result of one run of `startCall`: the trace of external steps, the
ordered `setStatus` calls, and whether `endCall()` ran (the catch path
awaits it; `endCall` itself ends with `setStatus('idle')`). -/
structure AuraStartResult where
  trace : List StartStep
  statusHistory : List AuraStatus
  endCallRun : Bool
deriving DecidableEq, Repr

/-- The `catch` path of `startCall`: `setStatus('error')`, then
`await endCall()` whose tail sets `idle`. -/
def auraFail (tr : List StartStep) : AuraStartResult :=
  { trace := tr
    statusHistory := [.connecting, .error, .idle]
    endCallRun := true }

/-- `startCall` (`src/app/aura/page.tsx` lines 97–218).  Source order:
`setStatus('connecting')`, load SDK, generate channel/ids, request the user
token (only `tokenRes.ok` is checked), join the channel, create and publish
the microphone track, register listeners, request the agent token (only
`agentTokenRes.ok` is checked), launch the agent (`agentRes.ok` checked),
then `setStatus('connected')`. -/
def startCall (env : AuraStartEnv) : AuraStartResult :=
  match env.sdkLoad with
  | .error _ => auraFail [.loadSdk]
  | .ok _ =>
    let tr1 := [StartStep.loadSdk, StartStep.requestUserToken]
    match env.userToken with
    | .error _ => auraFail tr1
    | .ok td =>
      if td.ok = false then auraFail tr1
      else
        let tr2 := tr1 ++ [StartStep.joinChannel]
        match env.joinRes with
        | .error _ => auraFail tr2
        | .ok _ =>
          let tr3 := tr2 ++ [StartStep.createAudioTrack]
          match env.trackRes with
          | .error _ => auraFail tr3
          | .ok _ =>
            let tr4 := tr3 ++ [StartStep.publishTrack]
            match env.publishRes with
            | .error _ => auraFail tr4
            | .ok _ =>
              let tr5 := tr4 ++ [StartStep.requestAgentToken]
              match env.agentToken with
              | .error _ => auraFail tr5
              | .ok atd =>
                if atd.ok = false then auraFail tr5
                else
                  let tr6 := tr5 ++ [StartStep.launchAgent]
                  match env.agentRes with
                  | .error _ => auraFail tr6
                  | .ok ad =>
                    if ad.ok = false then auraFail tr6
                    else
                      { trace := tr6
                        statusHistory := [.connecting, .connected]
                        endCallRun := false }

/-- The final status of a `startCall` run (the last `setStatus`). -/
def AuraStartResult.final (r : AuraStartResult) : AuraStatus :=
  r.statusHistory.getLastD .idle

/-- The fixed order in which `startConversation` performs its external
steps: user token, agent token, join, create track, publish, launch. -/
def pageStepOrder : List StartStep :=
  [.loadSdk, .requestUserToken, .requestAgentToken, .joinChannel,
    .createAudioTrack, .publishTrack, .launchAgent]

/-- The fixed order in which `startCall` performs its external steps:
user token, join, create track, publish, agent token, launch. -/
def auraStepOrder : List StartStep :=
  [.loadSdk, .requestUserToken, .joinChannel, .createAudioTrack,
    .publishTrack, .requestAgentToken, .launchAgent]

/-! ## Concrete fixtures used by witnesses and counterexamples -/

/-- A well-formed `/api/token` response body. -/
def tdOK : TokenData := ⟨true, "tok-user", "app-id-1", ""⟩

/-- A well-formed `/api/agent` response body. -/
def adOK : AgentData := ⟨true, "agent-1", ""⟩

/-- A run of `startConversation` in which every external step succeeds. -/
def envPageOK : PageStartEnv :=
  ⟨.ok (), .ok tdOK, .ok tdOK, .ok (), .ok (), .ok (), .ok adOK⟩

/-- A run in which the agent launch request rejects. -/
def envPageBad : PageStartEnv :=
  { envPageOK with agentRes := .error "agent launch failed" }

/-- A run of `startCall` in which every external step succeeds. -/
def envAuraOK : AuraStartEnv :=
  ⟨.ok (), .ok tdOK, .ok (), .ok (), .ok (), .ok tdOK, .ok adOK⟩

/-- A run of `startCall` in which the agent launch request rejects. -/
def envAuraBad : AuraStartEnv :=
  { envAuraOK with agentRes := .error "agent launch failed" }

/-- An environment with no variable set. -/
def emptyEnv : Env := fun _ => ""

/-- An environment whose values carry surrounding whitespace, as pasted
secrets do. -/
def envTrim : Env := fun k =>
  if k = "AGORA_APP_ID" then " app-id "
  else if k = "AGORA_APP_CERTIFICATE" then " cert "
  else if k = "AGORA_CUSTOMER_ID" then " cid "
  else if k = "AGORA_CUSTOMER_SECRET" then " sec "
  else if k = "OPENAI_API_KEY" then " sk-abc "
  else if k = "OPENROUTER_API_KEY" then " or-key "
  else if k = "ELEVENLABS_API_KEY" then " el-key "
  else ""

/-- An environment with the voice-adapter URL configured. -/
def envAdapter : Env := fun k =>
  if k = "NEXT_PUBLIC_VOICE_ADAPTER_URL" then "http://adapter.local/v1"
  else ""

/-- A minimal valid `POST /agent` body (all optional fields absent). -/
def bodyBase : AgentReqBody :=
  ⟨"ch-1", 2, 1, "tok-agent", "", none, none, none, none, none, none, none,
    none, none⟩

/-- The C7 scenario body: platform `agora`, language `en-US`, no
system-prompt override. -/
def bodyEnUS : AgentReqBody :=
  { bodyBase with language := some "en-US", platform := some "agora" }

/-- A body selecting the OpenRouter LLM provider. -/
def bodyOpenRouter : AgentReqBody :=
  { bodyBase with llmProvider := some "openrouter" }

/-! ## Helper lemmas -/

theorem regenAgentUid_ne (userUid : Nat) (stream : Nat → Nat) :
    ∀ i fuel a, regenAgentUid userUid stream i fuel = some a → a ≠ userUid := by
  intro i fuel
  induction fuel generalizing i with
  | zero => intro a h; simp [regenAgentUid] at h
  | succ n ih =>
    intro a h
    unfold regenAgentUid at h
    by_cases hs : stream i = userUid
    · simp [hs] at h
      exact ih (i + 1) a h
    · simp [hs] at h
      omega

/-- Every run of `startConversation` attempts a prefix of the fixed step
order (strict sequentiality: no step is started before the previous one
resolved). -/
theorem startConversation_trace_shape (env : PageStartEnv) :
    ∃ n, n ≤ 7 ∧ (startConversation env).trace = pageStepOrder.take n := by
  unfold startConversation pageFail
  repeat' split
  all_goals
    first
    | exact ⟨1, by omega, by rfl⟩
    | exact ⟨2, by omega, by rfl⟩
    | exact ⟨3, by omega, by rfl⟩
    | exact ⟨4, by omega, by rfl⟩
    | exact ⟨5, by omega, by rfl⟩
    | exact ⟨6, by omega, by rfl⟩
    | exact ⟨7, by omega, by rfl⟩

/-- Every run of `startCall` attempts a prefix of its fixed step order. -/
theorem startCall_trace_shape (env : AuraStartEnv) :
    ∃ n, n ≤ 7 ∧ (startCall env).trace = auraStepOrder.take n := by
  unfold startCall auraFail
  repeat' split
  all_goals
    first
    | exact ⟨1, by omega, by rfl⟩
    | exact ⟨2, by omega, by rfl⟩
    | exact ⟨3, by omega, by rfl⟩
    | exact ⟨4, by omega, by rfl⟩
    | exact ⟨5, by omega, by rfl⟩
    | exact ⟨6, by omega, by rfl⟩
    | exact ⟨7, by omega, by rfl⟩

/-- When `generateRtcToken` does reach the signer, the credentials in the
signing call are exactly the raw (untrimmed) values resolved from the
environment. -/
theorem generateRtcTokenCall_ok_fields (env : Env) (ch : String) (uid : Nat)
    (pf : String) (rp : Bool) (ex t : Nat) (sc : SignCall)
    (hsc : generateRtcTokenCall env ch uid pf rp ex t = .ok sc) :
    sc.appId = (tokenGetCredentials env pf).1 ∧
    sc.appCertificate = (tokenGetCredentials env pf).2 := by
  unfold generateRtcTokenCall at hsc
  by_cases hc : (tokenGetCredentials env pf).1 = "" ∨
      (tokenGetCredentials env pf).2 = ""
  · simp [hc] at hsc
  · simp [hc] at hsc
    subst hsc
    exact ⟨rfl, rfl⟩

theorem startConversation_connected_spec (env : PageStartEnv)
    (h : (startConversation env).state = ConnState.connected) :
    (∃ td, env.userToken = .ok td ∧ td.ok = true ∧ td.token ≠ "" ∧
      td.appId ≠ "") ∧
    (∃ td, env.agentToken = .ok td ∧ td.ok = true ∧ td.token ≠ "") ∧
    (∃ ad, env.agentRes = .ok ad ∧ ad.ok = true) := by
  unfold startConversation at h
  repeat' split at h
  all_goals simp_all [pageFail]

theorem startConversation_error_path (env : PageStartEnv)
    (h : (startConversation env).state ≠ ConnState.connected) :
    (startConversation env).state = ConnState.idle ∧
    (startConversation env).error.isSome = true ∧
    (startConversation env).cleanupRun = true := by
  unfold startConversation at h ⊢
  repeat' split
  all_goals simp_all [pageFail]

theorem startCall_connected_spec (env : AuraStartEnv)
    (h : (startCall env).final = AuraStatus.connected) :
    (∃ td, env.userToken = .ok td ∧ td.ok = true) ∧
    (∃ td, env.agentToken = .ok td ∧ td.ok = true) ∧
    (∃ ad, env.agentRes = .ok ad ∧ ad.ok = true) := by
  unfold startCall at h
  repeat' split at h
  all_goals simp_all [auraFail, AuraStartResult.final]

theorem startCall_error_path (env : AuraStartEnv)
    (h : (startCall env).final ≠ AuraStatus.connected) :
    AuraStatus.error ∈ (startCall env).statusHistory ∧
    (startCall env).final = AuraStatus.idle ∧
    (startCall env).endCallRun = true := by
  unfold startCall at h ⊢
  repeat' split
  all_goals simp_all [auraFail, AuraStartResult.final]

/-! ## Claims -/

/-- C1.  In both start sequences (`startConversation` of `src/app/page.tsx`
and `startCall` of `src/app/aura/page.tsx`), the session reaches Connected
only when the human-participant token request, the agent-participant token
request and the agent launch request have all succeeded; on any failing step
the session never reaches Connected and instead takes the error path (the
error is recorded, teardown runs, and the session ends idle — the aura page
additionally passes through its `error` status). -/
theorem connected_requires_grants_and_launch
    (envP : PageStartEnv) (envA : AuraStartEnv) :
    ((startConversation envP).state = ConnState.connected →
      (∃ td, envP.userToken = .ok td ∧ td.ok = true ∧ td.token ≠ "" ∧
        td.appId ≠ "") ∧
      (∃ td, envP.agentToken = .ok td ∧ td.ok = true ∧ td.token ≠ "") ∧
      (∃ ad, envP.agentRes = .ok ad ∧ ad.ok = true)) ∧
    ((startConversation envP).state ≠ ConnState.connected →
      (startConversation envP).state = ConnState.idle ∧
      (startConversation envP).error.isSome = true ∧
      (startConversation envP).cleanupRun = true) ∧
    ((startCall envA).final = AuraStatus.connected →
      (∃ td, envA.userToken = .ok td ∧ td.ok = true) ∧
      (∃ td, envA.agentToken = .ok td ∧ td.ok = true) ∧
      (∃ ad, envA.agentRes = .ok ad ∧ ad.ok = true)) ∧
    ((startCall envA).final ≠ AuraStatus.connected →
      AuraStatus.error ∈ (startCall envA).statusHistory ∧
      (startCall envA).final = AuraStatus.idle ∧
      (startCall envA).endCallRun = true) :=
  ⟨startConversation_connected_spec envP,
    startConversation_error_path envP,
    startCall_connected_spec envA,
    startCall_error_path envA⟩

/-- Witness for C1: a fully successful run is Connected with all three
upstream successes, and a run whose launch request fails ends idle with
the error recorded and cleanup run. -/
theorem connected_requires_grants_and_launch_witness :
    ((∃ td, envPageOK.userToken = .ok td ∧ td.ok = true ∧ td.token ≠ "" ∧
        td.appId ≠ "") ∧
      (∃ td, envPageOK.agentToken = .ok td ∧ td.ok = true ∧ td.token ≠ "") ∧
      (∃ ad, envPageOK.agentRes = .ok ad ∧ ad.ok = true)) ∧
    ((startConversation envPageBad).state = ConnState.idle ∧
      (startConversation envPageBad).error.isSome = true ∧
      (startConversation envPageBad).cleanupRun = true) ∧
    ((∃ td, envAuraOK.userToken = .ok td ∧ td.ok = true) ∧
      (∃ td, envAuraOK.agentToken = .ok td ∧ td.ok = true) ∧
      (∃ ad, envAuraOK.agentRes = .ok ad ∧ ad.ok = true)) ∧
    (AuraStatus.error ∈ (startCall envAuraBad).statusHistory ∧
      (startCall envAuraBad).final = AuraStatus.idle ∧
      (startCall envAuraBad).endCallRun = true) :=
  ⟨(connected_requires_grants_and_launch envPageOK envAuraOK).1 (by decide),
    (connected_requires_grants_and_launch envPageBad envAuraOK).2.1
      (by decide),
    (connected_requires_grants_and_launch envPageOK envAuraOK).2.2.1
      (by decide),
    (connected_requires_grants_and_launch envPageOK envAuraBad).2.2.2
      (by decide)⟩

/-- C2 counterexample.  The claim asserts that in every execution of the
start sequence the RTC channel is joined before the agent participant's
token is requested.  In `startConversation` (`src/app/page.tsx`) this is
false: on a fully successful run the agent token request occurs strictly
before the channel join. -/
theorem page_agentToken_before_join :
    StartStep.requestAgentToken ∈ (startConversation envPageOK).trace ∧
    StartStep.joinChannel ∈ (startConversation envPageOK).trace ∧
    (startConversation envPageOK).trace.indexOf StartStep.requestAgentToken <
      (startConversation envPageOK).trace.indexOf StartStep.joinChannel := by
  decide

/-- C2 (amended).  Both start sequences are strictly sequential: every run
performs a prefix of a fixed step order.  In both, the human token request
precedes the agent token request, and the agent token request precedes the
agent launch request.  The channel join precedes the agent token request in
`startCall` (aura page) only; in `startConversation` (main page) the agent
token is requested before the channel is joined. -/
theorem start_steps_sequential_ordering
    (envP : PageStartEnv) (envA : AuraStartEnv) :
    (∃ n, n ≤ 7 ∧ (startConversation envP).trace = pageStepOrder.take n) ∧
    (∃ m, m ≤ 7 ∧ (startCall envA).trace = auraStepOrder.take m) ∧
    (StartStep.requestAgentToken ∈ (startConversation envP).trace →
      (startConversation envP).trace.indexOf StartStep.requestUserToken <
        (startConversation envP).trace.indexOf StartStep.requestAgentToken) ∧
    (StartStep.launchAgent ∈ (startConversation envP).trace →
      (startConversation envP).trace.indexOf StartStep.requestAgentToken <
        (startConversation envP).trace.indexOf StartStep.launchAgent ∧
      (startConversation envP).trace.indexOf StartStep.requestAgentToken <
        (startConversation envP).trace.indexOf StartStep.joinChannel) ∧
    (StartStep.requestAgentToken ∈ (startCall envA).trace →
      (startCall envA).trace.indexOf StartStep.requestUserToken <
        (startCall envA).trace.indexOf StartStep.requestAgentToken ∧
      (startCall envA).trace.indexOf StartStep.joinChannel <
        (startCall envA).trace.indexOf StartStep.requestAgentToken) ∧
    (StartStep.launchAgent ∈ (startCall envA).trace →
      (startCall envA).trace.indexOf StartStep.requestAgentToken <
        (startCall envA).trace.indexOf StartStep.launchAgent) := by
  obtain ⟨n, hn, hp⟩ := startConversation_trace_shape envP
  obtain ⟨m, hm, ha⟩ := startCall_trace_shape envA
  refine ⟨⟨n, hn, hp⟩, ⟨m, hm, ha⟩, ?_, ?_, ?_, ?_⟩
  · rw [hp]; interval_cases n <;> decide
  · rw [hp]; interval_cases n <;> decide
  · rw [ha]; interval_cases m <;> decide
  · rw [ha]; interval_cases m <;> decide

/-- Witness for C2 (amended): on fully successful runs the stated orderings
hold concretely. -/
theorem start_steps_sequential_ordering_witness :
    ((startConversation envPageOK).trace.indexOf StartStep.requestUserToken <
      (startConversation envPageOK).trace.indexOf
        StartStep.requestAgentToken) ∧
    ((startCall envAuraOK).trace.indexOf StartStep.joinChannel <
      (startCall envAuraOK).trace.indexOf StartStep.requestAgentToken) ∧
    ((startCall envAuraOK).trace.indexOf StartStep.requestAgentToken <
      (startCall envAuraOK).trace.indexOf StartStep.launchAgent) :=
  ⟨(start_steps_sequential_ordering envPageOK envAuraOK).2.2.1 (by decide),
    ((start_steps_sequential_ordering envPageOK envAuraOK).2.2.2.2.1
      (by decide)).2,
    (start_steps_sequential_ordering envPageOK envAuraOK).2.2.2.2.2
      (by decide)⟩

/-- C3.  The claim is a property of every generated session identity pair.
`generateUids` (`src/utils/uid.ts`) does enforce it — whenever its
regeneration loop terminates, the two ids differ — but the identity pair
generated inside `startConversation` (`src/app/page.tsx` lines 109–110) is
two independent `generateUid()` draws with no collision check: a random
source that yields 42 for both draws produces the colliding pair (43, 43). -/
theorem pageUidPair_can_collide_generateUids_cannot :
    (pageUidPair (fun _ => 42)).1 = 43 ∧
    (pageUidPair (fun _ => 42)).2 = 43 ∧
    (∀ stream fuel p, generateUids stream fuel = some p → p.1 ≠ p.2) := by
  refine ⟨rfl, rfl, ?_⟩
  intro stream fuel p h
  unfold generateUids at h
  rcases hr : regenAgentUid (stream 0) stream 1 fuel with _ | a
  · rw [hr] at h; simp at h
  · rw [hr] at h
    simp at h
    have := regenAgentUid_ne (stream 0) stream 1 fuel a hr
    rw [← h]
    simpa using fun he => this he.symm

/-- Witness for C3: a stream whose second draw differs terminates in one
step and yields a distinct pair. -/
theorem pageUidPair_can_collide_generateUids_cannot_witness :
    generateUids (fun i => i) 1 = some (0, 1) ∧ (0 : Nat) ≠ 1 :=
  ⟨by decide,
    pageUidPair_can_collide_generateUids_cannot.2.2 (fun i => i) 1 (0, 1)
      (by decide)⟩

/-- C4.  For both supported platforms, when either credential (app id or
app certificate) resolves to the empty string, `generateRtcToken` throws a
configuration error before the vendor signing primitive is reached, and the
`POST /token` handler answers with the 500 configuration error having never
invoked the signer. -/
theorem token_configError_before_sign (sign : SignCall → String) (env : Env)
    (channelName : String) (uid : Nat) (platform : String) (now : Nat)
    (hpf : platform = "agora" ∨ platform = "shengwang")
    (hch : channelName ≠ "")
    (hcred : (tokenGetCredentials env platform).1 = "" ∨
      (tokenGetCredentials env platform).2 = "") :
    generateRtcTokenCall env channelName uid platform true 3600 now =
      .error (platform ++ " credentials not configured") ∧
    (tokenPOST sign env (some channelName) (some uid) (some platform)
      now).2 = none ∧
    (tokenPOST sign env (some channelName) (some uid) (some platform)
      now).1 = .configError ("Missing " ++ platform ++ " credentials") ∧
    ((tokenPOST sign env (some channelName) (some uid) (some platform)
      now).1).isServerError = true := by
  have hcall : generateRtcTokenCall env channelName uid platform true 3600
      now = .error (platform ++ " credentials not configured") := by
    unfold generateRtcTokenCall
    rcases hcred with h | h <;> simp [h]
  have henv : tokenRouteEnvFor env platform =
      some (tokenGetCredentials env platform) := by
    rcases hpf with h | h <;> subst h <;>
      simp [tokenRouteEnvFor, tokenGetCredentials]
  refine ⟨hcall, ?_⟩
  unfold tokenPOST
  simp only [Option.getD_some]
  rw [henv]
  rcases hcred with h | h <;>
    simp [jsOrOpt, jsOrStr, hch, h, TokenRouteResp.isServerError]

/-- Witness for C4: the unconfigured environment on platform `agora`. -/
theorem token_configError_before_sign_witness :
    generateRtcTokenCall emptyEnv "ch-1" 7 "agora" true 3600 0 =
      .error "agora credentials not configured" ∧
    (tokenPOST (fun _ => "signed") emptyEnv (some "ch-1") (some 7)
      (some "agora") 0).2 = none ∧
    (tokenPOST (fun _ => "signed") emptyEnv (some "ch-1") (some 7)
      (some "agora") 0).1 = .configError "Missing agora credentials" ∧
    ((tokenPOST (fun _ => "signed") emptyEnv (some "ch-1") (some 7)
      (some "agora") 0).1).isServerError = true :=
  token_configError_before_sign (fun _ => "signed") emptyEnv "ch-1" 7
    "agora" 0 (Or.inl rfl) (by decide) (Or.inl rfl)

/-- C8.  The in-memory log buffer of `src/app/api/agent/route.ts` is
append-only and bounded by the 200-entry cap: an append below the cap
extends the buffer, an append at the cap evicts exactly the oldest entry,
the length never exceeds the cap, and `GET /agent` reports a count equal to
the buffer's current length. -/
theorem logBuffer_bounded_and_evicts_oldest (logs : List LogEntry)
    (e : LogEntry) (h : logs.length ≤ LOG_CAP) :
    (logPush logs e).length ≤ LOG_CAP ∧
    (logs.length < LOG_CAP → logPush logs e = logs ++ [e]) ∧
    (logs.length = LOG_CAP → logPush logs e = logs.drop 1 ++ [e]) ∧
    (agentGET (logPush logs e)).2 = (logPush logs e).length := by
  have hcap : LOG_CAP = 200 := rfl
  rw [hcap] at h
  refine ⟨?_, ?_, ?_, ?_⟩
  · simp only [logPush, hcap]
    split <;>
      simp only [List.length_drop, List.length_append, List.length_cons,
        List.length_nil] at * <;>
      omega
  · intro hlt
    rw [hcap] at hlt
    simp only [logPush, hcap]
    rw [if_neg (by
      simp only [List.length_append, List.length_cons, List.length_nil]
      omega)]
  · intro heq
    rw [hcap] at heq
    simp only [logPush, hcap]
    rw [if_pos (by
      simp only [List.length_append, List.length_cons, List.length_nil]
      omega)]
    rw [List.drop_append_of_le_length (by omega)]
  · rfl

/-- Witness for C8: appending to a singleton buffer. -/
theorem logBuffer_bounded_and_evicts_oldest_witness :
    (logPush [⟨"t0", "REQUEST_BODY", "payload"⟩] ⟨"t1", "PLATFORM", "payload"⟩).length
      ≤ LOG_CAP ∧
    logPush [⟨"t0", "REQUEST_BODY", "payload"⟩] ⟨"t1", "PLATFORM", "payload"⟩ =
      [⟨"t0", "REQUEST_BODY", "payload"⟩] ++ [⟨"t1", "PLATFORM", "payload"⟩] :=
  ⟨(logBuffer_bounded_and_evicts_oldest [⟨"t0", "REQUEST_BODY", "payload"⟩]
      ⟨"t1", "PLATFORM", "payload"⟩ (by decide)).1,
    (logBuffer_bounded_and_evicts_oldest [⟨"t0", "REQUEST_BODY", "payload"⟩]
      ⟨"t1", "PLATFORM", "payload"⟩ (by decide)).2.1 (by decide)⟩

/-- C5.  For every non-2xx upstream reply to the agent start call: when the
body parses as JSON with a (non-empty) `message` field, the caller-visible
result carries exactly that message in its error field and the raw upstream
status; when the body is not parseable JSON, the result is the generic
failure whose details field carries the raw response text, again with the
upstream status. -/
theorem agent_upstream_error_surfaced (upStatus : Nat) (body : ParsedBody)
    (hko : httpOk upStatus = false) :
    (∀ m d a i, body = ParsedBody.fields (some m) d a i → m ≠ "" →
      (agentPOSTRespond upStatus body).error = some m ∧
      (agentPOSTRespond upStatus body).status = upStatus ∧
      (agentPOSTRespond upStatus body).started = false) ∧
    (∀ raw, body = ParsedBody.rawText raw →
      (agentPOSTRespond upStatus body).error = some "Failed to start agent" ∧
      (agentPOSTRespond upStatus body).details =
        some (ParsedBody.rawText raw) ∧
      (agentPOSTRespond upStatus body).status = upStatus ∧
      (agentPOSTRespond upStatus body).started = false) := by
  constructor
  · intro m d a i hb hm
    subst hb
    simp [agentPOSTRespond, hko, upstreamErrMsg, jsOrOpt, jsOrStr, hm]
  · intro raw hb
    subst hb
    simp [agentPOSTRespond, hko]

/-- Witness for C5: an HTTP 500 reply with body `{message: "X"}` surfaces
error "X" and status 500; a 502 reply with unparseable body surfaces the
generic failure with the raw text in the details. -/
theorem agent_upstream_error_surfaced_witness :
    ((agentPOSTRespond 500
        (ParsedBody.fields (some "X") none none none)).error = some "X" ∧
      (agentPOSTRespond 500
        (ParsedBody.fields (some "X") none none none)).status = 500) ∧
    ((agentPOSTRespond 502 (ParsedBody.rawText "<html>bad gateway")).error =
        some "Failed to start agent" ∧
      (agentPOSTRespond 502 (ParsedBody.rawText "<html>bad gateway")).details
        = some (ParsedBody.rawText "<html>bad gateway")) :=
  ⟨⟨((agent_upstream_error_surfaced 500
        (ParsedBody.fields (some "X") none none none) (by decide)).1
        "X" none none none rfl (by decide)).1,
      ((agent_upstream_error_surfaced 500
        (ParsedBody.fields (some "X") none none none) (by decide)).1
        "X" none none none rfl (by decide)).2.1⟩,
    ⟨((agent_upstream_error_surfaced 502
        (ParsedBody.rawText "<html>bad gateway") (by decide)).2
        "<html>bad gateway" rfl).1,
      ((agent_upstream_error_surfaced 502
        (ParsedBody.rawText "<html>bad gateway") (by decide)).2
        "<html>bad gateway" rfl).2.1⟩⟩

/-- C6.  `DELETE /agent`: whenever the request carries a (non-falsy)
`agentId` and the upstream stop call yields a JSON body — with any HTTP
status, including 404 for an already-stopped or unknown agent — the
response is 200 `{status: "stopped", ...upstreamFields}`; the response is
400 exactly when `agentId` is missing (JS-falsy); and a stop failure never
blocks the controller's teardown: `stopConversation` always ends in Idle
and still leaves the channel. -/
theorem deleteAgent_stopped_and_teardown_unblocked (agentId : Option String)
    (platform : Option String)
    (upstream : Except Unit (Nat × List (String × String)))
    (aid : Option String) (hasTrack hasClient : Bool)
    (stopOutcome : Except String DeleteResp) :
    (∀ a s fields, agentId = some a → a ≠ "" → upstream = .ok (s, fields) →
      agentDELETE agentId platform upstream = .stopped fields) ∧
    (agentDELETE agentId platform upstream = .badRequest ↔
      jsOrOpt agentId "" = "") ∧
    (stopConversation aid hasTrack hasClient stopOutcome).1 =
      ConnState.idle ∧
    (hasClient = true →
      TeardownAction.channelLeave ∈
        (stopConversation aid hasTrack hasClient stopOutcome).2.1) := by
  refine ⟨?_, ?_, rfl, ?_⟩
  · intro a s fields ha hne hup
    subst ha; subst hup
    simp [agentDELETE, jsOrOpt, jsOrStr, hne]
  · unfold agentDELETE
    by_cases hb : jsOrOpt agentId "" = ""
    · simp [hb]
    · cases upstream <;> simp [hb]
  · intro hc
    subst hc
    simp [stopConversation, cleanup]

/-- Witness for C6: an upstream 404 (already stopped) still yields the 200
`stopped` response, and a teardown whose stop call rejects still ends Idle
and leaves the channel. -/
theorem deleteAgent_stopped_and_teardown_unblocked_witness :
    agentDELETE (some "agent-1") (some "agora")
      (.ok (404, [("reason", "agent not found")])) =
      .stopped [("reason", "agent not found")] ∧
    (stopConversation (some "agent-1") true true
      (.error "network down")).1 = ConnState.idle ∧
    TeardownAction.channelLeave ∈
      (stopConversation (some "agent-1") true true
        (.error "network down")).2.1 :=
  ⟨(deleteAgent_stopped_and_teardown_unblocked (some "agent-1")
      (some "agora") (.ok (404, [("reason", "agent not found")]))
      (some "agent-1") true true (.error "network down")).1
      "agent-1" 404 [("reason", "agent not found")] rfl (by decide) rfl,
    (deleteAgent_stopped_and_teardown_unblocked (some "agent-1")
      (some "agora") (.ok (404, [("reason", "agent not found")]))
      (some "agent-1") true true (.error "network down")).2.2.1,
    (deleteAgent_stopped_and_teardown_unblocked (some "agent-1")
      (some "agora") (.ok (404, [("reason", "agent not found")]))
      (some "agent-1") true true (.error "network down")).2.2.2 rfl⟩

/-- C7.  The launch payload looks up language defaults (greeting, failure
text, system prompt) by exact match on the language tag, falls back to the
fixed default locale zh-CN when there is no match, and an explicit
(non-empty) caller-supplied system prompt takes precedence over the
language default; in particular, for language en-US with no system-prompt
override the payload's system message is the English default template, not
the zh-CN template. -/
theorem agentLaunch_language_defaults (env : Env) (b : AgentReqBody)
    (now : Nat) (p : AgentPayload) (hp : agentPOSTBuild env b now = some p) :
    (∀ cfg, LANG_CONFIG (b.language.getD "zh-CN") = some cfg →
      p.greetingMessage = cfg.greeting ∧ p.failureMessage = cfg.failure ∧
      ((b.systemPrompt = none ∨ b.systemPrompt = some "") →
        p.systemMessage = cfg.systemPrompt)) ∧
    (LANG_CONFIG (b.language.getD "zh-CN") = none →
      p.greetingMessage = LANG_CONFIG_zh.greeting ∧
      p.failureMessage = LANG_CONFIG_zh.failure ∧
      ((b.systemPrompt = none ∨ b.systemPrompt = some "") →
        p.systemMessage = LANG_CONFIG_zh.systemPrompt)) ∧
    (∀ s, b.systemPrompt = some s → s ≠ "" → p.systemMessage = s) ∧
    (b.language = some "en-US" → b.systemPrompt = none →
      p.systemMessage = LANG_CONFIG_en.systemPrompt ∧
      p.systemMessage ≠ LANG_CONFIG_zh.systemPrompt) := by
  unfold agentPOSTBuild at hp
  split at hp
  · simp at hp
  · rw [Option.some_inj] at hp
    subst hp
    refine ⟨?_, ?_, ?_, ?_⟩
    · intro cfg hcfg
      refine ⟨by simp [hcfg], by simp [hcfg], ?_⟩
      rintro (hsp | hsp) <;> simp [hsp, hcfg, jsOrOpt, jsOrStr]
    · intro hcfg
      refine ⟨by simp [hcfg], by simp [hcfg], ?_⟩
      rintro (hsp | hsp) <;> simp [hsp, hcfg, jsOrOpt, jsOrStr]
    · intro s hsp hne
      simp [hsp, jsOrOpt, jsOrStr, hne]
    · intro hlang hsp
      constructor
      · simp [hlang, hsp, jsOrOpt, jsOrStr, LANG_CONFIG]
      · simp [hlang, hsp, jsOrOpt, jsOrStr, LANG_CONFIG]
        decide

/-- Witness for C7: the en-US scenario body yields the English system
prompt and greeting. -/
theorem agentLaunch_language_defaults_witness :
    (agentPOSTBuild emptyEnv bodyEnUS 0).map AgentPayload.systemMessage =
      some LANG_CONFIG_en.systemPrompt ∧
    (agentPOSTBuild emptyEnv bodyEnUS 0).map AgentPayload.greetingMessage =
      some LANG_CONFIG_en.greeting := by
  rcases hp : agentPOSTBuild emptyEnv bodyEnUS 0 with _ | p
  · exact absurd hp (by decide)
  · have h := agentLaunch_language_defaults emptyEnv bodyEnUS 0 p hp
    have hscenario := h.2.2.2 rfl rfl
    have hexact := (h.1 LANG_CONFIG_en (by decide)).1
    simp only [Option.map_some']
    exact ⟨by rw [hscenario.1], by rw [hexact]⟩

/-- C9 counterexample.  The claim says every environment-sourced
configuration value is trimmed of surrounding whitespace before use; but
the platform app id read by `AGORA_CONFIG.getCredentials` is used verbatim:
with `AGORA_APP_ID = " app-id "` the launch URL and the Basic-auth string
embed the values still carrying their surrounding whitespace. -/
theorem agora_appId_used_untrimmed :
    envTrim "AGORA_APP_ID" = " app-id " ∧
    (AGORA_getCredentials envTrim).appId = " app-id " ∧
    " app-id ".data.head? = some ' ' ∧
    " app-id ".data.getLast? = some ' ' ∧
    (" app-id " : String) ≠ "app-id" ∧
    (agentPOSTBuild envTrim bodyBase 0).map AgentPayload.apiUrl =
      some (AGORA_apiBase ++ "/ app-id /join") ∧
    (agentPOSTBuild envTrim bodyBase 0).map AgentPayload.authRaw =
      some " cid : sec " := by
  refine ⟨rfl, rfl, by decide, by decide, by decide, rfl, rfl⟩

/-- C9 (amended).  Vendor API keys (the OpenAI, OpenRouter and Aliyun LLM
keys, the ElevenLabs/MiniMax/Volcano TTS keys and ids) are read from the
environment at request time and trimmed before being placed in the launch
payload; the platform credentials are read at request time but used
untrimmed: the app id, customer id and customer secret land raw in the
request URL and the Basic-auth string, and the app id and app certificate
land raw in the token-signing call. -/
theorem envSecrets_trimmed_credentials_raw (env : Env) (b : AgentReqBody)
    (now : Nat) (p : AgentPayload) (hp : agentPOSTBuild env b now = some p) :
    (∀ k m v, p.tts = TtsConfig.elevenlabs k m v →
      k = (env "ELEVENLABS_API_KEY").trim) ∧
    (∀ k g m v, p.tts = TtsConfig.minimax k g m v →
      k = (env "MINIMAX_API_KEY").trim ∧
      g = (env "MINIMAX_GROUP_ID").trim) ∧
    (∀ t a c v, p.tts = TtsConfig.volcano t a c v →
      t = (env "VOLCANO_ACCESS_TOKEN").trim ∧
      a = (env "VOLCANO_APP_ID").trim) ∧
    (jsOrOpt b.customLlmUrl (env "NEXT_PUBLIC_VOICE_ADAPTER_URL") = "" →
      b.platform.getD "agora" = "shengwang" →
      p.llmApiKey = (env "ALIYUN_API_KEY").trim) ∧
    (jsOrOpt b.customLlmUrl (env "NEXT_PUBLIC_VOICE_ADAPTER_URL") = "" →
      b.platform.getD "agora" ≠ "shengwang" →
      b.llmProvider.getD "openai" = "openai" →
      p.llmApiKey = (env "OPENAI_API_KEY").trim) ∧
    (jsOrOpt b.customLlmUrl (env "NEXT_PUBLIC_VOICE_ADAPTER_URL") = "" →
      b.platform.getD "agora" ≠ "shengwang" →
      b.llmProvider.getD "openai" = "openrouter" →
      p.llmApiKey = (env "OPENROUTER_API_KEY").trim) ∧
    (b.platform.getD "agora" ≠ "shengwang" →
      p.apiUrl = AGORA_apiBase ++ "/" ++ env "AGORA_APP_ID" ++ "/join" ∧
      p.authRaw = env "AGORA_CUSTOMER_ID" ++ ":" ++
        env "AGORA_CUSTOMER_SECRET") ∧
    (b.platform.getD "agora" = "shengwang" →
      p.apiUrl = SHENGWANG_apiBase ++ "/" ++ env "SHENGWANG_APP_ID" ++
        "/join" ∧
      p.authRaw = env "SHENGWANG_CUSTOMER_ID" ++ ":" ++
        env "SHENGWANG_CUSTOMER_SECRET") ∧
    (∀ ch uid rp ex t sc,
      generateRtcTokenCall env ch uid "agora" rp ex t = .ok sc →
      sc.appId = env "AGORA_APP_ID" ∧
      sc.appCertificate = env "AGORA_APP_CERTIFICATE") ∧
    (∀ ch uid rp ex t sc,
      generateRtcTokenCall env ch uid "shengwang" rp ex t = .ok sc →
      sc.appId = env "SHENGWANG_APP_ID" ∧
      sc.appCertificate = env "SHENGWANG_APP_CERTIFICATE") := by
  unfold agentPOSTBuild at hp
  split at hp
  · simp at hp
  · rw [Option.some_inj] at hp
    subst hp
    refine ⟨?_, ?_, ?_, ?_, ?_, ?_, ?_, ?_, ?_, ?_⟩
    · intro k m v htts
      by_cases hsw : b.platform.getD "agora" = "shengwang"
      · by_cases hv : b.ttsVendor = some "volcano" <;>
          simp [hsw, hv, getVolcanoTTS, getMiniMaxTTS] at htts
      · simp [hsw, getElevenLabsTTS] at htts
        exact htts.1.symm
    · intro k g m v htts
      by_cases hsw : b.platform.getD "agora" = "shengwang"
      · by_cases hv : b.ttsVendor = some "volcano"
        · simp [hsw, hv, getVolcanoTTS] at htts
        · simp [hsw, hv, getMiniMaxTTS] at htts
          exact ⟨htts.1.symm, htts.2.1.symm⟩
      · simp [hsw, getElevenLabsTTS] at htts
    · intro t a c v htts
      by_cases hsw : b.platform.getD "agora" = "shengwang"
      · by_cases hv : b.ttsVendor = some "volcano"
        · simp [hsw, hv, getVolcanoTTS] at htts
          exact ⟨htts.1.symm, htts.2.1.symm⟩
        · simp [hsw, hv, getMiniMaxTTS] at htts
      · simp [hsw, getElevenLabsTTS] at htts
    · intro hc hsw
      simp only [jsOrOpt] at hc
      simp [hc, hsw, shengwangLlm]
    · intro hc hsw hprov
      simp only [jsOrOpt] at hc
      simp [hc, hsw, hprov, agoraLlmProvider]
    · intro hc hsw hprov
      simp only [jsOrOpt] at hc
      simp [hc, hsw, hprov, agoraLlmProvider]
    · intro hsw
      simp [hsw, AGORA_getCredentials]
    · intro hsw
      simp [hsw, SHENGWANG_getCredentials]
    · intro ch uid rp ex t sc hsc
      have hf := generateRtcTokenCall_ok_fields env ch uid "agora" rp ex t
        sc hsc
      simpa [tokenGetCredentials] using hf
    · intro ch uid rp ex t sc hsc
      have hf := generateRtcTokenCall_ok_fields env ch uid "shengwang" rp ex
        t sc hsc
      simpa [tokenGetCredentials] using hf

/-- Witness for C9 (amended): with whitespace-padded env values, the OpenAI
key and the ElevenLabs key land trimmed in the payload while the app id and
customer credentials land raw. -/
theorem envSecrets_trimmed_credentials_raw_witness :
    (agentPOSTBuild envTrim bodyBase 0).map AgentPayload.llmApiKey =
      some ((envTrim "OPENAI_API_KEY").trim) ∧
    (agentPOSTBuild envTrim bodyOpenRouter 0).map AgentPayload.llmApiKey =
      some ((envTrim "OPENROUTER_API_KEY").trim) ∧
    (agentPOSTBuild envTrim bodyBase 0).map AgentPayload.apiUrl =
      some (AGORA_apiBase ++ "/" ++ envTrim "AGORA_APP_ID" ++ "/join") ∧
    Except.map SignCall.appCertificate
      (generateRtcTokenCall envTrim "ch-1" 7 "agora" true 3600 0) =
      .ok (envTrim "AGORA_APP_CERTIFICATE") := by
  have hsign : generateRtcTokenCall envTrim "ch-1" 7 "agora" true 3600 0 =
      .ok ⟨" app-id ", " cert ", "ch-1", 7, true, 3600, 3600⟩ := by rfl
  rcases hp : agentPOSTBuild envTrim bodyBase 0 with _ | p
  · exact absurd hp (by decide)
  rcases hq : agentPOSTBuild envTrim bodyOpenRouter 0 with _ | q
  · exact absurd hq (by decide)
  have h := envSecrets_trimmed_credentials_raw envTrim bodyBase 0 p hp
  have h2 := envSecrets_trimmed_credentials_raw envTrim bodyOpenRouter 0 q hq
  have hkey := h.2.2.2.2.1 (by decide) (by decide) rfl
  have hkey2 := h2.2.2.2.2.2.1 (by decide) (by decide) rfl
  have hurl := (h.2.2.2.2.2.2.1 (by decide)).1
  have hcert := (h.2.2.2.2.2.2.2.2.1 "ch-1" 7 true 3600 0 _ hsign).2
  simp only [Option.map_some']
  refine ⟨by rw [hkey], by rw [hkey2], by rw [hurl], ?_⟩
  rw [hsign]
  exact congrArg (fun s => (Except.ok s : Except String String)) hcert

/-- C10.  Whenever the request body carries a non-empty `customLlmUrl` or
the `NEXT_PUBLIC_VOICE_ADAPTER_URL` environment variable is set, the launch
payload's LLM block is routed to that custom URL with model `openclaw` and
api key `not-required`, regardless of the platform or the requested LLM
provider. -/
theorem customLlm_overrides_provider (env : Env) (b : AgentReqBody)
    (now : Nat) (p : AgentPayload) (hp : agentPOSTBuild env b now = some p)
    (hurl :
      jsOrOpt b.customLlmUrl (env "NEXT_PUBLIC_VOICE_ADAPTER_URL") ≠ "") :
    p.llmUrl = jsOrOpt b.customLlmUrl (env "NEXT_PUBLIC_VOICE_ADAPTER_URL") ∧
    p.llmModel = "openclaw" ∧
    p.llmApiKey = "not-required" ∧
    p.llmName = "OpenClaw Voice Adapter" := by
  unfold agentPOSTBuild at hp
  split at hp
  · simp at hp
  · rw [Option.some_inj] at hp
    subst hp
    simp only [jsOrOpt] at hurl
    refine ⟨?_, ?_, ?_, ?_⟩ <;> simp [hurl, jsOrOpt]

/-- Witness for C10: with the adapter URL set in the environment and no
body override, the LLM block targets the adapter with model `openclaw` and
key `not-required` — even though the body asked for the default platform
provider. -/
theorem customLlm_overrides_provider_witness :
    (agentPOSTBuild envAdapter bodyBase 0).map AgentPayload.llmUrl =
      some "http://adapter.local/v1" ∧
    (agentPOSTBuild envAdapter bodyBase 0).map AgentPayload.llmModel =
      some "openclaw" ∧
    (agentPOSTBuild envAdapter bodyBase 0).map AgentPayload.llmApiKey =
      some "not-required" := by
  rcases hp : agentPOSTBuild envAdapter bodyBase 0 with _ | p
  · exact absurd hp (by decide)
  · have h := customLlm_overrides_provider envAdapter bodyBase 0 p hp
      (by decide)
    simp only [Option.map_some']
    refine ⟨?_, ?_, ?_⟩
    · rw [h.1]; decide
    · rw [h.2.1]
    · rw [h.2.2.1]

end ConvoAI
